import Mathlib

/-!
Verification of the layer-upload commit protocol (the storage package's
layerWriter: Finish, Cancel, validateLayer, moveLayer, linkLayer,
removeResources) and of the grpc notification sink (grpcSink) of the
distribution registry excerpt.

The storage driver is embedded as an explicit world state: a flat map
from backend paths to string contents, together with per-operation fault
sets (paths on which an operation fails with a backend I/O error) and a
log of the driver operations performed, so that frame and ordering
properties ("no reader is opened", "no move is performed") are visible
in the state.
-/

set_option maxHeartbeats 1000000

deriving instance DecidableEq for Except

namespace Storage

abbrev Path := String

/-- Error taxonomy of the storage driver contract: a distinguished
not-found condition versus all other backend errors. -/
inductive DriverError where
  | pathNotFound (p : Path)
  | ioError (msg : String)
deriving DecidableEq, Repr

/-- Log entries recording which driver operations a run performed. -/
inductive Eff where
  | statE (p : Path)
  | putContentE (p : Path) (b : String)
  | moveE (src dst : Path)
  | deleteE (p : Path)
  | openReaderE (p : Path) (bytesRead : Nat)
  | closeHandleE
deriving DecidableEq, Repr

/-- Backend state: files, fault sets for each operation, and the log of
operations performed so far. -/
structure World where
  files : List (Path × String)
  statFaults : List Path := []
  putFaults : List Path := []
  moveFaults : List Path := []
  deleteFaults : List Path := []
  log : List Eff := []
deriving DecidableEq, Repr

/-- First-match lookup in an association list of files. -/
def lookupL (l : List (Path × String)) (p : Path) : Option String :=
  match l with
  | [] => none
  | kv :: t => if kv.1 == p then some kv.2 else lookupL t p

def lookupFile (w : World) (p : Path) : Option String :=
  lookupL w.files p

/-- Store content at a path, replacing any previous entry for it. -/
def setFile (l : List (Path × String)) (p : Path) (b : String) : List (Path × String) :=
  (l.filter (fun kv => !(kv.1 == p))) ++ [(p, b)]

/-- Whether path p lies at or below directory dir. -/
def underDir (dir p : Path) : Bool :=
  p == dir || List.isPrefixOf (dir ++ "/").data p.data

/-- Driver stat: existence check, logged; a stat fault surfaces as a
backend I/O error, a missing path as the not-found condition. -/
def statOp (w : World) (p : Path) : Except DriverError String × World :=
  let w1 := { w with log := w.log ++ [Eff.statE p] }
  if w.statFaults.contains p then (.error (.ioError "stat fault"), w1)
  else
    match lookupFile w p with
    | some b => (.ok b, w1)
    | none => (.error (.pathNotFound p), w1)

/-- Driver putContent: whole-value write, logged. -/
def putContentOp (w : World) (p : Path) (b : String) : Except DriverError Unit × World :=
  let w1 := { w with log := w.log ++ [Eff.putContentE p b] }
  if w.putFaults.contains p then (.error (.ioError "put fault"), w1)
  else (.ok (), { w1 with files := setFile w1.files p b })

/-- Driver move: atomic move of src to dst, logged; fails not-found when
the source is absent. -/
def moveOp (w : World) (src dst : Path) : Except DriverError Unit × World :=
  let w1 := { w with log := w.log ++ [Eff.moveE src dst] }
  match lookupFile w src with
  | none => (.error (.pathNotFound src), w1)
  | some b =>
    if w.moveFaults.contains src || w.moveFaults.contains dst then
      (.error (.ioError "move fault"), w1)
    else
      (.ok (), { w1 with files := setFile (w1.files.filter (fun kv => !(kv.1 == src))) dst b })

/-- Driver delete: recursive removal of everything at or below p, logged;
fails not-found when nothing is there. -/
def deleteOp (w : World) (p : Path) : Except DriverError Unit × World :=
  let w1 := { w with log := w.log ++ [Eff.deleteE p] }
  if w.deleteFaults.contains p then (.error (.ioError "delete fault"), w1)
  else if (w.files.filter (fun kv => underDir p kv.1)).isEmpty then
    (.error (.pathNotFound p), w1)
  else (.ok (), { w1 with files := w1.files.filter (fun kv => !(underDir p kv.1)) })

/-- Go path.Dir for the slash-separated paths used here: everything
before the final slash. -/
def pathDir (p : Path) : Path :=
  String.mk (((p.data.reverse.dropWhile (fun c => c != '/')).drop 1).reverse)

/-- Modelled from the spec: path builder entry blobPath (blobDataPathSpec
of the path mapper, which is outside this excerpt) — the content-addressed
location, depending only on the digest. -/
def blobDataPath (dgst : String) : Path :=
  "/blobs/" ++ dgst ++ "/data"

/-- Modelled from the spec: path builder entry repositoryLinkPath
(layerLinkPathSpec), namespaced under the repository. -/
def layerLinkPath (name dgst : String) : Path :=
  "/repositories/" ++ name ++ "/_layers/" ++ dgst ++ "/link"

/-- Modelled from the spec: path builder entry uploadScratchPath
(uploadDataPathSpec), namespaced under the repository and session. -/
def uploadDataPath (name uuid : String) : Path :=
  "/repositories/" ++ name ++ "/_uploads/" ++ uuid ++ "/data"

inductive TarsumVersion where
  | version0
  | version1
  | versionDev
deriving DecidableEq, Repr

/-- Characters of a digest string before the first plus sign. -/
def takeUntilPlus : List Char → List Char
  | [] => []
  | c :: cs => if c = '+' then [] else c :: takeUntilPlus cs

/-- Modelled from the external tarsum package: GetVersionFromTarsum takes
the label before the first plus sign and maps the known tarsum labels to
their versions, failing on anything else. -/
def getVersionFromTarsum (s : String) : Except String TarsumVersion :=
  let tsv := String.mk (takeUntilPlus s.data)
  if tsv = "tarsum" then .ok .version0
  else if tsv = "tarsum.v1" then .ok .version1
  else if tsv = "tarsum.dev" then .ok .versionDev
  else .error "tarsum: not a tarsum version"

/-- Modelled from the spec: the canonical archive digest computed from the
actual bytes (the external digest package's FromTarArchive); a concrete
rolling hash stands in for the real hash function. -/
def hashBytes (s : String) : Nat :=
  s.data.foldl (fun h c => (h * 131 + c.toNat) % 1000000007) 7

def digestFromTarArchive (content : String) : String :=
  "tarsum.v1+sha256:" ++ Nat.repr (hashBytes content)

/-- The well-known digest of zero-length archive content
(DigestTarSumV1EmptyTar). -/
def digestTarSumV1EmptyTar : String :=
  digestFromTarArchive ""

/-- Modelled from the spec: the digest verifier's terminal Verified query
after the whole content has been fed to it — the claimed digest matches
the digest of the bytes actually read. -/
def digestVerified (claimed : String) (content : String) : Bool :=
  claimed == digestFromTarArchive content

/-- The resumable layer writer: repository name, session uuid, and the
scratch path its fileWriter writes to. -/
structure LayerWriter where
  name : String
  uuid : String
  path : Path
deriving DecidableEq, Repr

/-- Reason field of ErrLayerInvalidDigest. -/
inductive InvalidReason where
  | tarSumVersionUnsupported
  | contentMismatch
deriving DecidableEq, Repr

/-- Errors surfaced by Finish and Cancel. -/
inductive FinishError where
  | invalidDigest (dgst : String) (reason : InvalidReason)
  | tarsumVersionParse (msg : String)
  | driver (e : DriverError)
deriving DecidableEq, Repr

/-- A resolved, fetchable layer handle. -/
structure Layer where
  digest : String
  size : Nat
deriving DecidableEq, Repr

/-- The storage package's file reader: stats the path and, when the path
is absent, yields a zero-length reader rather than an error (per the
spec's empty-content edge case); any other stat error propagates. The
whole content read is logged with its length. -/
def newFileReader (w : World) (p : Path) : Except DriverError String × World :=
  match statOp w p with
  | (.ok b, w1) => (.ok b, { w1 with log := w1.log ++ [Eff.openReaderE p b.length] })
  | (.error (.pathNotFound _), w1) => (.ok "", { w1 with log := w1.log ++ [Eff.openReaderE p 0] })
  | (.error e, w1) => (.error e, w1)

/-- validateLayer: check the tarsum version of the claimed digest (only
Version1 is accepted), then read the scratch content through a verifier
bound to the claimed digest while recomputing the canonical digest, and
fail with a content-mismatch reason when the verifier is not verified. -/
def validateLayer (lw : LayerWriter) (dgst : String) (w : World) :
    Except FinishError String × World :=
  match getVersionFromTarsum dgst with
  | .error msg => (.error (.tarsumVersionParse msg), w)
  | .ok v =>
    match v with
    | .version1 =>
      match newFileReader w lw.path with
      | (.error e, w1) => (.error (.driver e), w1)
      | (.ok content, w1) =>
        if digestVerified dgst content then
          (.ok (digestFromTarArchive content), w1)
        else
          (.error (.invalidDigest dgst .contentMismatch), w1)
    | _ => (.error (.invalidDigest dgst .tarSumVersionUnsupported), w)

/-- moveLayer: move the validated data to its content-addressed
destination. An existing blob makes the move a successful no-op; a
missing scratch file with the well-known empty digest synthesizes a
zero-length blob; otherwise the move proceeds and may fail naturally. -/
def moveLayer (lw : LayerWriter) (dgst : String) (w : World) :
    Except FinishError Unit × World :=
  match statOp w (blobDataPath dgst) with
  | (.ok _, w1) => (.ok (), w1)
  | (.error (.pathNotFound _), w1) =>
    (match statOp w1 lw.path with
     | (.ok _, w2) =>
       (match moveOp w2 lw.path (blobDataPath dgst) with
        | (.ok _, w3) => (.ok (), w3)
        | (.error e, w3) => (.error (.driver e), w3))
     | (.error (.pathNotFound _), w2) =>
       if dgst = digestTarSumV1EmptyTar then
         match putContentOp w2 (blobDataPath dgst) "" with
         | (.ok _, w3) => (.ok (), w3)
         | (.error e, w3) => (.error (.driver e), w3)
       else
         (match moveOp w2 lw.path (blobDataPath dgst) with
          | (.ok _, w3) => (.ok (), w3)
          | (.error e, w3) => (.error (.driver e), w3))
     | (.error e, w2) => (.error (.driver e), w2))
  | (.error e, w1) => (.error (.driver e), w1)

/-- linkLayer: write the canonical digest as the content of the
repository-scoped link path. -/
def linkLayer (lw : LayerWriter) (dgst : String) (w : World) :
    Except FinishError Unit × World :=
  match putContentOp w (layerLinkPath lw.name dgst) dgst with
  | (.ok _, w1) => (.ok (), w1)
  | (.error e, w1) => (.error (.driver e), w1)

/-- removeResources: delete the directory containing the upload's data
path, tolerating the case where it is already gone. -/
def removeResources (lw : LayerWriter) (w : World) :
    Except FinishError Unit × World :=
  match deleteOp w (pathDir (uploadDataPath lw.name lw.uuid)) with
  | (.ok _, w1) => (.ok (), w1)
  | (.error (.pathNotFound _), w1) => (.ok (), w1)
  | (.error e, w1) => (.error (.driver e), w1)

/-- Modelled from the spec: the repository blob store's fetch, resolving
a digest to a handle through the blob's content-addressed path. -/
def fetchLayer (w : World) (dgst : String) : Except FinishError Layer × World :=
  match statOp w (blobDataPath dgst) with
  | (.ok b, w1) => (.ok { digest := dgst, size := b.length }, w1)
  | (.error e, w1) => (.error (.driver e), w1)

/-- Finish: validate, move, link, clean up, each phase only after the
previous succeeded, any failure returned immediately; on success the
layer handle is resolved via the repository facade. -/
def finish (lw : LayerWriter) (dgst : String) (w : World) :
    Except FinishError Layer × World :=
  match validateLayer lw dgst w with
  | (.error e, w1) => (.error e, w1)
  | (.ok canonical, w1) =>
    match moveLayer lw canonical w1 with
    | (.error e, w2) => (.error e, w2)
    | (.ok _, w2) =>
      match linkLayer lw canonical w2 with
      | (.error e, w3) => (.error e, w3)
      | (.ok _, w3) =>
        match removeResources lw w3 with
        | (.error e, w4) => (.error e, w4)
        | (.ok _, w4) => fetchLayer w4 canonical

/-- Cancel: remove the upload's resources and release the write handle. -/
def cancel (lw : LayerWriter) (w : World) : Except FinishError Unit × World :=
  match removeResources lw w with
  | (.error e, w1) => (.error e, w1)
  | (.ok _, w1) => (.ok (), { w1 with log := w1.log ++ [Eff.closeHandleE] })

end Storage

namespace Notif

/-- Wire descriptor message (grpcClient.DescriptorMessage). -/
structure DescriptorMessage where
  mediaType : String
  length : Int
  digest : String
deriving DecidableEq, Repr

/-- Wire target message (grpcClient.TargetMessage). -/
structure TargetMessage where
  repository : String
  url : String
  descriptor : DescriptorMessage
deriving DecidableEq, Repr

/-- Wire request-provenance message (grpcClient.RequestRecordMessage). -/
structure RequestRecordMessage where
  id : String
  addr : String
  host : String
  method : String
  userAgent : String
deriving DecidableEq, Repr

/-- Wire actor message (grpcClient.ActorRecordMessage). -/
structure ActorRecordMessage where
  name : String
deriving DecidableEq, Repr

/-- Wire source message (grpcClient.SourceRecordMessage). -/
structure SourceRecordMessage where
  addr : String
  instanceID : String
deriving DecidableEq, Repr

/-- Wire event record (grpcClient.Event). -/
structure WireEvent where
  id : String
  timestamp : Int
  action : String
  target : TargetMessage
  request : RequestRecordMessage
  actor : ActorRecordMessage
  source : SourceRecordMessage
deriving DecidableEq, Repr

/-- A time value, carrying its Unix-seconds rendering. -/
structure TimeVal where
  unixSeconds : Int
deriving DecidableEq, Repr

/-- A digest value with its string rendering (Digest.String in Go). -/
structure DigestVal where
  val : String
deriving DecidableEq, Repr

def DigestVal.stringForm (d : DigestVal) : String := d.val

/-- Schema descriptor of an event target. -/
structure EvDescriptor where
  mediaType : String
  length : Int
  digest : DigestVal
deriving DecidableEq, Repr

structure EvTarget where
  repository : String
  url : String
  descriptor : EvDescriptor
deriving DecidableEq, Repr

structure EvRequest where
  id : String
  addr : String
  host : String
  method : String
  userAgent : String
deriving DecidableEq, Repr

structure EvActor where
  name : String
deriving DecidableEq, Repr

structure EvSource where
  addr : String
  instanceID : String
deriving DecidableEq, Repr

/-- The notification event schema consumed by the sink. -/
structure Event where
  id : String
  timestamp : TimeVal
  action : String
  target : EvTarget
  request : EvRequest
  actor : EvActor
  source : EvSource
deriving DecidableEq, Repr

/-- The remote event-receiver client: the result its Publish call returns
for a given batch of wire events (none is success). -/
structure GrpcClient where
  publishResult : List WireEvent → Option String

/-- The grpc connection; carries the result its Close call returns. -/
structure GrpcConn where
  closeErr : Option String
deriving DecidableEq, Repr

/-- The grpc notification sink: url, the mutex-guarded closed flag, the
client and the connection. The mutex itself has no observable content in
this embedding. -/
structure GrpcSink where
  url : String
  closed : Bool
  client : GrpcClient
  conn : GrpcConn

/-- The per-event conversion performed inside grpcSink.Write: each schema
field of the source event is copied into the wire record, the timestamp
as Unix seconds and the digest as its string form. -/
def eventToWire (ev : Event) : WireEvent :=
  { id := ev.id
    timestamp := ev.timestamp.unixSeconds
    action := ev.action
    target :=
      { repository := ev.target.repository
        url := ev.target.url
        descriptor :=
          { mediaType := ev.target.descriptor.mediaType
            length := ev.target.descriptor.length
            digest := ev.target.descriptor.digest.stringForm } }
    request :=
      { id := ev.request.id
        addr := ev.request.addr
        host := ev.request.host
        method := ev.request.method
        userAgent := ev.request.userAgent }
    actor := { name := ev.actor.name }
    source :=
      { addr := ev.source.addr
        instanceID := ev.source.instanceID } }

/-- grpcSink.Write: convert every event, publish the whole batch in one
Publish call, and return that call's error. The second component records
the Publish calls made. -/
def sinkWrite (g : GrpcSink) (es : List Event) : Option String × List (List WireEvent) :=
  let events := es.map eventToWire
  (g.client.publishResult events, [events])

/-- grpcSink.Close: returns the connection's Close result; it does not
set the closed flag nor otherwise change the sink. -/
def sinkClose (g : GrpcSink) : Option String × GrpcSink :=
  (g.conn.closeErr, g)

/-- newGrpcSink: dial the url; on a dial error return nil (there is no
error channel in the return type), otherwise build the sink around a
fresh client. -/
def newGrpcSink (dial : String → Except String GrpcConn)
    (newClient : GrpcConn → GrpcClient) (url : String) : Option GrpcSink :=
  match dial url with
  | .error _ => none
  | .ok conn => some { url := url, closed := false, client := newClient conn, conn := conn }

end Notif

namespace Storage

/-! Concrete instances used to witness the theorems below. -/

/-- A concrete session writer for repository r1, session u1. -/
def lwEx : LayerWriter :=
  { name := "r1", uuid := "u1", path := uploadDataPath "r1" "u1" }

/-- Scratch directory of the concrete session. -/
def scratchDirEx : Path := pathDir (uploadDataPath "r1" "u1")

/-- Claimed digest matching scratch content "abc". -/
def dgstEx : String := digestFromTarArchive "abc"

/-- World holding the scratch content, with a delete fault on the scratch
directory so that the cleanup phase fails. -/
def wExCleanupFault : World :=
  { files := [(uploadDataPath "r1" "u1", "abc")], deleteFaults := [scratchDirEx] }

/-- World holding only the scratch content, no faults. -/
def wExScratch : World :=
  { files := [(uploadDataPath "r1" "u1", "abc")] }

/-- Empty world: no files, no faults. -/
def wExEmpty : World :=
  { files := [] }

/-- World where the blob for dgstEx already exists. -/
def wExBlob : World :=
  { files := [(blobDataPath dgstEx, "abc")] }

/-- World after the validate phase of the cleanup-fault run. -/
def wC1v1 : World := (validateLayer lwEx dgstEx wExCleanupFault).2

/-- World after the move phase of the cleanup-fault run. -/
def wC1v2 : World := (moveLayer lwEx dgstEx wC1v1).2

/-- World after the link phase of the cleanup-fault run. -/
def wC1v3 : World := (linkLayer lwEx dgstEx wC1v2).2

/-- World after the failed cleanup phase of the cleanup-fault run. -/
def wC1v4 : World := (removeResources lwEx wC1v3).2

end Storage

namespace Storage

/-! Helper lemmas about the file map and the driver operations. -/

theorem lookupL_setFile_self (l : List (Path × String)) (p : Path) (b : String) :
    lookupL (setFile l p b) p = some b := by
  induction l with
  | nil => simp [setFile, lookupL]
  | cons kv t ih =>
    by_cases hk : kv.1 = p
    · simpa [setFile, List.filter_cons, hk] using ih
    · simpa [setFile, List.filter_cons, hk, lookupL] using ih

theorem lookupL_filter_not_under (l : List (Path × String)) (d p : Path)
    (hp : underDir d p = false) :
    lookupL (l.filter (fun kv => !(underDir d kv.1))) p = lookupL l p := by
  induction l with
  | nil => rfl
  | cons kv t ih =>
    by_cases hk : kv.1 = p
    · subst hk
      simp [List.filter_cons, hp, lookupL, ih]
    · by_cases hu : underDir d kv.1
      · simp [List.filter_cons, hu, lookupL, hk, ih]
      · simp [List.filter_cons, hu, lookupL, hk, ih]

theorem filter_not_of_filter_under_nil (l : List (Path × String)) (d : Path)
    (h : l.filter (fun kv => underDir d kv.1) = []) :
    l.filter (fun kv => !(underDir d kv.1)) = l := by
  induction l with
  | nil => rfl
  | cons kv t ih =>
    by_cases hu : underDir d kv.1
    · rw [List.filter_cons, if_pos hu] at h
      exact absurd h (List.cons_ne_nil kv _)
    · rw [List.filter_cons, if_neg hu] at h
      rw [List.filter_cons]
      have hu2 : (!(underDir d kv.1)) = true := by
        rw [Bool.not_eq_true']
        exact Bool.of_not_eq_true hu
      rw [if_pos hu2, ih h]

theorem deleteOp_error_files (w : World) (p : Path) (e : DriverError) (w1 : World)
    (h : deleteOp w p = (.error e, w1)) : w1.files = w.files := by
  unfold deleteOp at h
  by_cases hf : w.deleteFaults.contains p = true
  · rw [if_pos hf] at h
    injection h with h1 h2
    rw [← h2]
  · rw [if_neg hf] at h
    by_cases he : (w.files.filter (fun kv => underDir p kv.1)).isEmpty = true
    · rw [if_pos he] at h
      injection h with h1 h2
      rw [← h2]
    · rw [if_neg he] at h
      injection h with h1 h2
      exact Except.noConfusion h1

theorem removeResources_error_files (lw : LayerWriter) (w : World) (e : FinishError)
    (w1 : World) (h : removeResources lw w = (.error e, w1)) : w1.files = w.files := by
  unfold removeResources at h
  cases hd : deleteOp w (pathDir (uploadDataPath lw.name lw.uuid)) with
  | mk r wd =>
    rw [hd] at h
    cases r with
    | ok u => simp at h
    | error de =>
      cases de with
      | pathNotFound q => simp at h
      | ioError m =>
        simp only [Prod.mk.injEq, Except.error.injEq] at h
        rw [← h.2]
        exact deleteOp_error_files w _ _ wd hd

end Storage

namespace Storage

theorem newFileReader_ok_snd (w : World) (p : Path) (content : String)
    (h : (newFileReader w p).1 = .ok content) :
    (newFileReader w p).2 =
      { w with log := w.log ++ [Eff.statE p, Eff.openReaderE p content.length] } := by
  unfold newFileReader statOp at h ⊢
  by_cases hf : w.statFaults.contains p = true
  · rw [if_pos hf] at h ⊢
    exact Except.noConfusion h
  · rw [if_neg hf] at h ⊢
    cases hl : lookupFile w p with
    | some b =>
      rw [hl] at h
      simp only at h
      injection h with h1
      subst h1
      simp [List.append_assoc]
    | none =>
      rw [hl] at h
      simp only at h
      injection h with h1
      subst h1
      simp [List.append_assoc]

/-- C1: Finish runs exactly the four phases validate, move, link, cleanup
in this fixed order; each phase begins only if every earlier phase
succeeded, any phase error is returned immediately with no further phase
run, and a cleanup failure after a successful move and link still makes
Finish return that error while the moved blob and the written link stay
in place (the files after the failed cleanup are exactly those after the
link phase — no compensation or rollback). -/
theorem finish_short_circuits (lw : LayerWriter) (dgst : String) (w : World) :
    (∀ e w1, validateLayer lw dgst w = (.error e, w1) → finish lw dgst w = (.error e, w1))
    ∧ (∀ c w1 e w2, validateLayer lw dgst w = (.ok c, w1) →
        moveLayer lw c w1 = (.error e, w2) → finish lw dgst w = (.error e, w2))
    ∧ (∀ c w1 w2 e w3, validateLayer lw dgst w = (.ok c, w1) →
        moveLayer lw c w1 = (.ok (), w2) → linkLayer lw c w2 = (.error e, w3) →
        finish lw dgst w = (.error e, w3))
    ∧ (∀ c w1 w2 w3 e w4, validateLayer lw dgst w = (.ok c, w1) →
        moveLayer lw c w1 = (.ok (), w2) → linkLayer lw c w2 = (.ok (), w3) →
        removeResources lw w3 = (.error e, w4) →
        finish lw dgst w = (.error e, w4) ∧ w4.files = w3.files)
    ∧ (∀ c w1 w2 w3 w4, validateLayer lw dgst w = (.ok c, w1) →
        moveLayer lw c w1 = (.ok (), w2) → linkLayer lw c w2 = (.ok (), w3) →
        removeResources lw w3 = (.ok (), w4) →
        finish lw dgst w = fetchLayer w4 c) := by
  refine ⟨?_, ?_, ?_, ?_, ?_⟩
  · intro e w1 hv
    simp [finish, hv]
  · intro c w1 e w2 hv hm
    simp [finish, hv, hm]
  · intro c w1 w2 e w3 hv hm hl
    simp [finish, hv, hm, hl]
  · intro c w1 w2 w3 e w4 hv hm hl hr
    refine ⟨?_, removeResources_error_files lw w3 e w4 hr⟩
    simp [finish, hv, hm, hl, hr]
  · intro c w1 w2 w3 w4 hv hm hl hr
    simp [finish, hv, hm, hl, hr]

/-- C1 witness: a concrete run whose first three phases succeed and whose
cleanup fails on a delete fault; Finish reports the cleanup error and the
files are exactly those after the link phase. -/
theorem finish_short_circuits_witness :
    finish lwEx dgstEx wExCleanupFault =
      (.error (.driver (.ioError "delete fault")), wC1v4)
    ∧ wC1v4.files = wC1v3.files :=
  (finish_short_circuits lwEx dgstEx wExCleanupFault).2.2.2.1 dgstEx wC1v1 wC1v2 wC1v3
    (.driver (.ioError "delete fault")) wC1v4 (by decide) (by decide) (by decide) (by decide)

/-- C2: a claimed digest whose tarsum version parses to anything other
than Version1 makes Finish fail with the unsupported-version reason of
ErrLayerInvalidDigest while the world — files, fault sets and operation
log alike — is completely unchanged: no reader is opened, no bytes are
hashed, and no blob, link, or move is created. -/
theorem finish_unsupported_version (lw : LayerWriter) (dgst : String) (w : World)
    (v : TarsumVersion) (hv : getVersionFromTarsum dgst = .ok v)
    (hne : v ≠ TarsumVersion.version1) :
    finish lw dgst w = (.error (.invalidDigest dgst .tarSumVersionUnsupported), w) := by
  cases v with
  | version1 => exact absurd rfl hne
  | version0 =>
    unfold finish validateLayer
    rw [hv]
  | versionDev =>
    unfold finish validateLayer
    rw [hv]

/-- C2 witness: a dev-version claimed digest on a world holding scratch
content. -/
theorem finish_unsupported_version_witness :
    getVersionFromTarsum "tarsum.dev+sha256:123" = .ok TarsumVersion.versionDev
    ∧ finish lwEx "tarsum.dev+sha256:123" wExScratch =
        (.error (.invalidDigest "tarsum.dev+sha256:123" .tarSumVersionUnsupported), wExScratch) :=
  ⟨by decide,
   finish_unsupported_version lwEx "tarsum.dev+sha256:123" wExScratch TarsumVersion.versionDev
     (by decide) (by decide)⟩

/-- C3: with an accepted-version claimed digest, when the scratch content
does not verify against the claimed digest, Finish fails with the
content-mismatch reason; the log shows the error arises only after the
entire scratch content went through the teed reader (a full-length read
is recorded), and the files are exactly those before the call — the
scratch directory and its content are left in place and the cleanup phase
never runs. -/
theorem finish_content_mismatch (lw : LayerWriter) (dgst : String) (w : World)
    (content : String)
    (hv : getVersionFromTarsum dgst = .ok TarsumVersion.version1)
    (hr : (newFileReader w lw.path).1 = .ok content)
    (hm : digestVerified dgst content = false) :
    finish lw dgst w =
      (.error (.invalidDigest dgst .contentMismatch),
       { w with log := w.log ++ [Eff.statE lw.path, Eff.openReaderE lw.path content.length] }) := by
  have h2 := newFileReader_ok_snd w lw.path content hr
  have hfr : newFileReader w lw.path =
      (.ok content,
       { w with log := w.log ++ [Eff.statE lw.path, Eff.openReaderE lw.path content.length] }) := by
    cases hq : newFileReader w lw.path with
    | mk r w1 =>
      rw [hq] at hr h2
      simp only at hr h2
      rw [hr, h2]
  unfold finish validateLayer
  rw [hv]
  simp only
  rw [hfr]
  simp only [hm, Bool.false_eq_true, if_false]

/-- C3 witness: claimed digest of content "xyz" against scratch content
"abc". -/
theorem finish_content_mismatch_witness :
    finish lwEx (digestFromTarArchive "xyz") wExScratch =
      (.error (.invalidDigest (digestFromTarArchive "xyz") .contentMismatch),
       { wExScratch with
         log := wExScratch.log ++
           [Eff.statE lwEx.path, Eff.openReaderE lwEx.path ("abc".length)] }) :=
  finish_content_mismatch lwEx (digestFromTarArchive "xyz") wExScratch "abc"
    (by decide) (by decide) (by decide)

end Storage

namespace Storage

theorem moveLayer_ok_blob_present (lw : LayerWriter) (dgst : String) (w w2 : World)
    (h : moveLayer lw dgst w = (.ok (), w2)) :
    ∃ b, lookupFile w2 (blobDataPath dgst) = some b := by
  by_cases hbf : blobDataPath dgst ∈ w.statFaults
  · simp [moveLayer, statOp, hbf] at h
  · cases hbl : lookupL w.files (blobDataPath dgst) with
    | some b =>
      simp [moveLayer, statOp, lookupFile, hbf, hbl] at h
      refine ⟨b, ?_⟩
      rw [← h]
      simpa [lookupFile] using hbl
    | none =>
      by_cases hsf : lw.path ∈ w.statFaults
      · simp [moveLayer, statOp, lookupFile, hbf, hbl, hsf] at h
      · cases hsl : lookupL w.files lw.path with
        | some c =>
          by_cases hm1 : lw.path ∈ w.moveFaults
          · simp [moveLayer, statOp, moveOp, lookupFile, hbf, hbl, hsf, hsl, hm1] at h
          · by_cases hm2 : blobDataPath dgst ∈ w.moveFaults
            · simp [moveLayer, statOp, moveOp, lookupFile, hbf, hbl, hsf, hsl, hm1, hm2] at h
            · simp [moveLayer, statOp, moveOp, lookupFile, hbf, hbl, hsf, hsl, hm1, hm2] at h
              refine ⟨c, ?_⟩
              rw [← h]
              simp [lookupFile, lookupL_setFile_self]
        | none =>
          by_cases hde : dgst = digestTarSumV1EmptyTar
          · subst hde
            by_cases hpf : blobDataPath digestTarSumV1EmptyTar ∈ w.putFaults
            · simp [moveLayer, statOp, putContentOp, lookupFile, hbf, hbl, hsf, hsl, hpf] at h
            · simp [moveLayer, statOp, putContentOp, lookupFile, hbf, hbl, hsf, hsl, hpf] at h
              refine ⟨"", ?_⟩
              rw [← h]
              simp [lookupFile, lookupL_setFile_self]
          · simp [moveLayer, statOp, moveOp, lookupFile, hbf, hbl, hsf, hsl, hde] at h

/-- C4: the commit phase is idempotent in the destination state: when a
blob already exists at the destination path (and its existence check is
not faulted), moveLayer succeeds having performed only that stat — no
move, put, or delete — and after any successful moveLayer run a second
run with the same canonical digest is exactly such a stat-only no-op that
still succeeds, so the real move happens at most once. -/
theorem moveLayer_idempotent (lw : LayerWriter) (dgst : String) :
    (∀ w b, blobDataPath dgst ∉ w.statFaults →
       lookupFile w (blobDataPath dgst) = some b →
       moveLayer lw dgst w =
         (.ok (), { w with log := w.log ++ [Eff.statE (blobDataPath dgst)] }))
    ∧ (∀ w w2, moveLayer lw dgst w = (.ok (), w2) →
       blobDataPath dgst ∉ w2.statFaults →
       moveLayer lw dgst w2 =
         (.ok (), { w2 with log := w2.log ++ [Eff.statE (blobDataPath dgst)] })) := by
  have base : ∀ w b, blobDataPath dgst ∉ w.statFaults →
      lookupFile w (blobDataPath dgst) = some b →
      moveLayer lw dgst w =
        (.ok (), { w with log := w.log ++ [Eff.statE (blobDataPath dgst)] }) := by
    intro w b hf hl
    have hl2 : lookupL w.files (blobDataPath dgst) = some b := hl
    simp [moveLayer, statOp, lookupFile, hf, hl2]
  refine ⟨base, ?_⟩
  intro w w2 hok hf
  obtain ⟨b, hb⟩ := moveLayer_ok_blob_present lw dgst w w2 hok
  exact base w2 b hf hb

/-- C4 witness: the blob for dgstEx already exists; moveLayer is a
stat-only success. -/
theorem moveLayer_idempotent_witness :
    moveLayer lwEx dgstEx wExBlob =
      (.ok (), { wExBlob with log := wExBlob.log ++ [Eff.statE (blobDataPath dgstEx)] }) :=
  (moveLayer_idempotent lwEx dgstEx).1 wExBlob "abc" (by decide) (by decide)

/-- C5: when no blob exists at the destination and the scratch path is
absent on the backend: with the well-known empty-archive digest,
moveLayer writes a zero-length blob directly at the destination and
succeeds; with any other digest it synthesizes no content and proceeds to
the move, which fails naturally with not-found on the scratch path; and a
non-not-found stat error on the scratch path aborts the phase with that
error. -/
theorem moveLayer_missing_scratch (lw : LayerWriter) (dgst : String) (w : World)
    (hb : lookupFile w (blobDataPath dgst) = none)
    (hbf : blobDataPath dgst ∉ w.statFaults) :
    (lw.path ∉ w.statFaults → lookupFile w lw.path = none →
      dgst = digestTarSumV1EmptyTar → blobDataPath dgst ∉ w.putFaults →
      moveLayer lw dgst w = (.ok (), { w with
        files := setFile w.files (blobDataPath dgst) "",
        log := w.log ++ [Eff.statE (blobDataPath dgst), Eff.statE lw.path,
                Eff.putContentE (blobDataPath dgst) ""] }))
    ∧ (lw.path ∉ w.statFaults → lookupFile w lw.path = none →
      dgst ≠ digestTarSumV1EmptyTar →
      moveLayer lw dgst w = (.error (.driver (.pathNotFound lw.path)), { w with
        log := w.log ++ [Eff.statE (blobDataPath dgst), Eff.statE lw.path,
                Eff.moveE lw.path (blobDataPath dgst)] }))
    ∧ (lw.path ∈ w.statFaults →
      moveLayer lw dgst w = (.error (.driver (.ioError "stat fault")), { w with
        log := w.log ++ [Eff.statE (blobDataPath dgst), Eff.statE lw.path] })) := by
  refine ⟨?_, ?_, ?_⟩
  · intro hsf hsl hde hpf
    subst hde
    have hb2 : lookupL w.files (blobDataPath digestTarSumV1EmptyTar) = none := hb
    have hsl2 : lookupL w.files lw.path = none := hsl
    simp [moveLayer, statOp, putContentOp, lookupFile, hb2, hbf, hsf, hsl2, hpf,
      List.append_assoc]
  · intro hsf hsl hde
    have hb2 : lookupL w.files (blobDataPath dgst) = none := hb
    have hsl2 : lookupL w.files lw.path = none := hsl
    simp [moveLayer, statOp, moveOp, lookupFile, hb2, hbf, hsf, hsl2, hde,
      List.append_assoc]
  · intro hsf
    have hb2 : lookupL w.files (blobDataPath dgst) = none := hb
    simp [moveLayer, statOp, lookupFile, hb2, hbf, hsf, List.append_assoc]

/-- C5 witness: the empty world, finished with the empty-archive digest:
a zero-length blob appears at the destination. -/
theorem moveLayer_missing_scratch_witness :
    moveLayer lwEx digestTarSumV1EmptyTar wExEmpty =
      (.ok (), { wExEmpty with
        files := setFile wExEmpty.files (blobDataPath digestTarSumV1EmptyTar) "",
        log := wExEmpty.log ++ [Eff.statE (blobDataPath digestTarSumV1EmptyTar),
                Eff.statE lwEx.path,
                Eff.putContentE (blobDataPath digestTarSumV1EmptyTar) ""] }) :=
  (moveLayer_missing_scratch lwEx digestTarSumV1EmptyTar wExEmpty (by decide) (by decide)).1
    (by decide) (by decide) rfl (by decide)

end Storage

namespace Storage

theorem cancel_eq (lw : LayerWriter) (w : World)
    (hf : pathDir (uploadDataPath lw.name lw.uuid) ∉ w.deleteFaults) :
    cancel lw w = (.ok (), { w with
      files := w.files.filter
        (fun kv => !(underDir (pathDir (uploadDataPath lw.name lw.uuid)) kv.1)),
      log := w.log ++ [Eff.deleteE (pathDir (uploadDataPath lw.name lw.uuid)),
              Eff.closeHandleE] }) := by
  by_cases he : (w.files.filter
      (fun kv => underDir (pathDir (uploadDataPath lw.name lw.uuid)) kv.1)).isEmpty = true
  · have hnil : w.files.filter
        (fun kv => underDir (pathDir (uploadDataPath lw.name lw.uuid)) kv.1) = [] := by
      simpa using he
    rw [filter_not_of_filter_under_nil w.files _ hnil]
    simp [cancel, removeResources, deleteOp, hf, he, List.append_assoc]
  · simp [cancel, removeResources, deleteOp, hf, he, List.append_assoc]

/-- C6: the layer writer keeps no closed/terminal flag: a second Cancel
after a completed Cancel of the same session is still honored and returns
success — not a session-already-closed error, no such error exists in the
code — evaluated here on a concrete session whose scratch content existed
before the first Cancel, so terminal calls are not guarded against double
invocation. -/
theorem cancel_twice_succeeds :
    (cancel lwEx wExScratch).1 = .ok ()
    ∧ (cancel lwEx (cancel lwEx wExScratch).2).1 = .ok () := by
  decide

/-- C7: Cancel deletes the session's whole scratch directory (keeping
exactly the files outside it; an already absent directory surfaces as the
delete's not-found answer, which is tolerated and still yields success)
and releases the write handle; its only driver effects are that one
delete and the handle close, and every path outside the scratch
directory — every blob path and link path in particular — keeps exactly
its previous content. -/
theorem cancel_cleans_scratch (lw : LayerWriter) (w : World)
    (hf : pathDir (uploadDataPath lw.name lw.uuid) ∉ w.deleteFaults) :
    (cancel lw w).1 = .ok ()
    ∧ ((cancel lw w).2).files =
        w.files.filter (fun kv => !(underDir (pathDir (uploadDataPath lw.name lw.uuid)) kv.1))
    ∧ ((cancel lw w).2).log =
        w.log ++ [Eff.deleteE (pathDir (uploadDataPath lw.name lw.uuid)), Eff.closeHandleE]
    ∧ (∀ p, underDir (pathDir (uploadDataPath lw.name lw.uuid)) p = false →
        lookupFile (cancel lw w).2 p = lookupFile w p) := by
  have hc := cancel_eq lw w hf
  rw [hc]
  refine ⟨rfl, rfl, rfl, ?_⟩
  intro p hp
  exact lookupL_filter_not_under w.files _ p hp

/-- C7 witness: cancelling the concrete session removes its scratch file,
logs exactly the delete and the handle close, and succeeds. -/
theorem cancel_cleans_scratch_witness :
    (cancel lwEx wExScratch).1 = .ok ()
    ∧ ((cancel lwEx wExScratch).2).files =
        wExScratch.files.filter
          (fun kv => !(underDir (pathDir (uploadDataPath lwEx.name lwEx.uuid)) kv.1))
    ∧ ((cancel lwEx wExScratch).2).log =
        wExScratch.log ++
          [Eff.deleteE (pathDir (uploadDataPath lwEx.name lwEx.uuid)), Eff.closeHandleE] := by
  have h := cancel_cleans_scratch lwEx wExScratch (by decide)
  exact ⟨h.1, h.2.1, h.2.2.1⟩

end Storage

namespace Notif

/-- C8: Write builds exactly one wire record per input event in input
order — the published batch is the map of the per-event conversion over
the input list — with every schema field preserved (identifier, Unix
timestamp, action, target repository, URL and descriptor media type,
length and digest string form, request id, address, host, method and user
agent, actor name, source address and instance id), publishes the batch
in a single Publish call, and returns exactly that call's error. -/
theorem sinkWrite_preserves_events (g : GrpcSink) (es : List Event) :
    (sinkWrite g es).2 = [es.map eventToWire]
    ∧ (es.map eventToWire).length = es.length
    ∧ (∀ ev,
        (eventToWire ev).id = ev.id ∧
        (eventToWire ev).timestamp = ev.timestamp.unixSeconds ∧
        (eventToWire ev).action = ev.action ∧
        (eventToWire ev).target.repository = ev.target.repository ∧
        (eventToWire ev).target.url = ev.target.url ∧
        (eventToWire ev).target.descriptor.mediaType = ev.target.descriptor.mediaType ∧
        (eventToWire ev).target.descriptor.length = ev.target.descriptor.length ∧
        (eventToWire ev).target.descriptor.digest = ev.target.descriptor.digest.stringForm ∧
        (eventToWire ev).request.id = ev.request.id ∧
        (eventToWire ev).request.addr = ev.request.addr ∧
        (eventToWire ev).request.host = ev.request.host ∧
        (eventToWire ev).request.method = ev.request.method ∧
        (eventToWire ev).request.userAgent = ev.request.userAgent ∧
        (eventToWire ev).actor.name = ev.actor.name ∧
        (eventToWire ev).source.addr = ev.source.addr ∧
        (eventToWire ev).source.instanceID = ev.source.instanceID)
    ∧ (sinkWrite g es).1 = g.client.publishResult (es.map eventToWire) := by
  refine ⟨rfl, by simp, ?_, rfl⟩
  intro ev
  exact ⟨rfl, rfl, rfl, rfl, rfl, rfl, rfl, rfl, rfl, rfl, rfl, rfl, rfl, rfl, rfl, rfl⟩

/-- C9: the closed flag is never consulted: Write behaves identically
whatever the flag's value, Write after Close behaves identically to Write
before it (Close returns the connection's close result and does not even
set the flag), and Write's result is always exactly the client's Publish
result — no sink-closed error exists on the send path. -/
theorem sinkWrite_ignores_closed (g : GrpcSink) (es : List Event) (b : Bool) :
    sinkWrite { g with closed := b } es = sinkWrite g es
    ∧ sinkWrite (sinkClose g).2 es = sinkWrite g es
    ∧ (sinkClose g).2.closed = g.closed
    ∧ (sinkWrite g es).1 = g.client.publishResult (es.map eventToWire) :=
  ⟨rfl, rfl, rfl, rfl⟩

/-- C10: when dialing the url fails, newGrpcSink returns none — the Go
function returns nil and its return type carries no error channel — so
the caller gets neither a usable sink nor any indication of the
underlying dial failure. -/
theorem newGrpcSink_nil_on_dial_error (dial : String → Except String GrpcConn)
    (newClient : GrpcConn → GrpcClient) (url msg : String)
    (h : dial url = .error msg) :
    newGrpcSink dial newClient url = none := by
  unfold newGrpcSink
  rw [h]

/-- C10 witness: a dial that always fails yields a none sink. -/
theorem newGrpcSink_nil_on_dial_error_witness :
    newGrpcSink (fun _ => Except.error "connection refused")
      (fun _ => { publishResult := fun _ => none }) "registry.example:443" = none :=
  newGrpcSink_nil_on_dial_error (fun _ => Except.error "connection refused")
    (fun _ => { publishResult := fun _ => none }) "registry.example:443" "connection refused"
    rfl

end Notif
